import Mathlib

/-!
Shallow embedding of `packages/rewriter/lib/deferred-source-map-cache.ts`.

The cache stores deferral records (`DeferredSourceMapRequest`) and exposes
`defer`, `resolve` and `reset`.  The source-map payload (TypeScript `any`)
is modelled by an opaque type parameter `M`, and the opaque request headers
by a type parameter `H`.

The external collaborators used by `resolve`
(`sourceMaps.getMappingUrl`, `sourceMaps.tryDecodeInlineUrl`, the injected
`requestLib`, and `rewriteJsSourceMapAsync`) are modelled as a record of
abstract functions; a collaborator that may fail returns an `Option`.
`resolve` additionally returns the list of collaborator invocations it
performed (an event trace), so that claims of the form "no network fetch
happens" or "no collaborator is invoked" are statable.
-/

namespace Rewriter

/-- The record type cached by the store, mirroring the TypeScript type
`DeferredSourceMapRequest` with fields `uniqueId`, `url`, optional `js`
and optional `sourceMap`. -/
structure DeferredSourceMapRequest (M : Type) where
  uniqueId : String
  url : String
  js : Option String := none
  sourceMap : Option M := none
deriving DecidableEq

/-- The request object passed to `requestLib` in `resolve`:
`{ url: request.url, headers, timeout: 5000 }`. -/
structure FetchRequest (H : Type) where
  url : String
  headers : H
  timeout : Nat
deriving DecidableEq

/-- The distinct failure exits of the cache:
`duplicateIdentifier` models the throw
`Deferred sourcemap key "..." is not unique` in `defer`;
`missingSource` models the throw `Missing JS for source map rewrite` in
`resolve`; `composeError` models a rejection propagated from the
`rewriteJsSourceMapAsync` collaborator. -/
inductive CacheError where
  | duplicateIdentifier
  | missingSource
  | composeError
deriving DecidableEq

/-- One collaborator invocation performed by `resolve`, recorded in the
order the TypeScript code performs them. -/
inductive Event (H M : Type) where
  | getMappingUrl (js : String)
  | tryDecodeInlineUrl (sourceMapUrl : String)
  | requestLib (req : FetchRequest H)
  | rewriteJsSourceMapAsync (url js : String) (inputSourceMap : Option M)
deriving DecidableEq

/-- Whether an event is a network fetch through `requestLib`. -/
def Event.isRequestLib {H M : Type} : Event H M → Bool
  | Event.requestLib _ => true
  | _ => false

/-- The external collaborators of the cache.  `requestLib` returns the
response body on success and `none` when the request throws (timeout,
network error, non-decodable body); `rewriteJsSourceMapAsync` returns
`none` when the composition rejects. -/
structure Collaborators (H M : Type) where
  getMappingUrl : String → Option String
  tryDecodeInlineUrl : String → Option M
  requestLib : FetchRequest H → Option M
  rewriteJsSourceMapAsync : String → String → Option M → Option M

/-- The cache state: the `_idCounter` field (declared and never used by the
TypeScript class) and the insertion-ordered `requests` array.  The
`requestLib` collaborator held by the TypeScript instance is pure code,
not data, and is passed to `resolve` as part of `Collaborators`. -/
structure DeferredSourceMapCache (M : Type) where
  _idCounter : Nat := 0
  requests : List (DeferredSourceMapRequest M) := []
deriving DecidableEq

namespace DeferredSourceMapCache

variable {M H : Type}

/-- `reset () { this.requests = [] }`. -/
def reset (c : DeferredSourceMapCache M) : DeferredSourceMapCache M :=
  { c with requests := [] }

/-- `_getRequestById (uniqueId) { return _.find(this.requests, { uniqueId }) }`:
first record whose `uniqueId` matches. -/
def _getRequestById (c : DeferredSourceMapCache M) (uniqueId : String) :
    Option (DeferredSourceMapRequest M) :=
  c.requests.find? (fun r => r.uniqueId == uniqueId)

/-- `_removeRequestsByUrl (url) { _.remove(this.requests, { url }) }`:
removes every record whose `url` matches, keeping the order of the rest. -/
def _removeRequestsByUrl (c : DeferredSourceMapCache M) (url : String) :
    DeferredSourceMapCache M :=
  { c with requests := c.requests.filter (fun r => r.url != url) }

/-- `defer`: throws if the `uniqueId` is already present, otherwise removes
existing requests for the same URL, appends the new request, and returns
its `uniqueId`.  The resulting state is returned alongside the
`Except`-modelled outcome (a throw leaves the store unchanged). -/
def defer (c : DeferredSourceMapCache M) (request : DeferredSourceMapRequest M) :
    Except CacheError String × DeferredSourceMapCache M :=
  match c._getRequestById request.uniqueId with
  | some _ => (Except.error CacheError.duplicateIdentifier, c)
  | none =>
    (Except.ok request.uniqueId,
      { c with requests := (c._removeRequestsByUrl request.url).requests ++ [request] })

/-- The in-place mutation at the end of `resolve`
(`request.sourceMap = ...; delete request.js`), applied to the first
record in the array whose `uniqueId` matches (the one `_.find` returned). -/
def setResolvedSourceMap (uniqueId : String) (m : M) :
    List (DeferredSourceMapRequest M) → List (DeferredSourceMapRequest M)
  | [] => []
  | r :: rest =>
    if r.uniqueId == uniqueId then { r with sourceMap := some m, js := none } :: rest
    else r :: setResolvedSourceMap uniqueId m rest

/-- The input-source-map acquisition step of `resolve`: look up the
mapping URL in the rewritten JS; if present, try the inline base64 decode;
if that fails, fetch from the web with `{ url, headers, timeout: 5000 }`,
swallowing any fetch failure.  Returns the input map (if any obtained)
and the collaborator events performed. -/
def getInputSourceMap (col : Collaborators H M) (request : DeferredSourceMapRequest M)
    (js : String) (headers : H) : Option M × List (Event H M) :=
  match col.getMappingUrl js with
  | none => (none, [Event.getMappingUrl js])
  | some sourceMapUrl =>
    match col.tryDecodeInlineUrl sourceMapUrl with
    | some im => (some im, [Event.getMappingUrl js, Event.tryDecodeInlineUrl sourceMapUrl])
    | none =>
      (col.requestLib ⟨request.url, headers, 5000⟩,
        [Event.getMappingUrl js, Event.tryDecodeInlineUrl sourceMapUrl,
          Event.requestLib ⟨request.url, headers, 5000⟩])

/-- The tail of `resolve` once the record has been found with no cached
`sourceMap` and a present `js`: acquire the input map, compose via
`rewriteJsSourceMapAsync`, cache the result on the record and drop `js`.
A composition failure propagates and leaves the store unchanged. -/
def resolveWork (col : Collaborators H M) (c : DeferredSourceMapCache M)
    (uniqueId : String) (headers : H) (request : DeferredSourceMapRequest M)
    (js : String) :
    Except CacheError (Option M) × DeferredSourceMapCache M × List (Event H M) :=
  let p := getInputSourceMap col request js headers
  let events := p.2 ++ [Event.rewriteJsSourceMapAsync request.url js p.1]
  match col.rewriteJsSourceMapAsync request.url js p.1 with
  | none => (Except.error CacheError.composeError, c, events)
  | some m =>
    (Except.ok (some m),
      { c with requests := setResolvedSourceMap uniqueId m c.requests }, events)

/-- `resolve (uniqueId, headers)`: returns `undefined` (modelled `none`)
when no record exists; returns the cached `sourceMap` when present;
throws `Missing JS for source map rewrite` when `js` is absent; otherwise
reconstructs the map via `resolveWork`.  The triple is
(outcome, new store state, collaborator event trace). -/
def resolve (col : Collaborators H M) (c : DeferredSourceMapCache M)
    (uniqueId : String) (headers : H) :
    Except CacheError (Option M) × DeferredSourceMapCache M × List (Event H M) :=
  match c._getRequestById uniqueId with
  | none => (Except.ok none, c, [])
  | some request =>
    match request.sourceMap with
    | some m => (Except.ok (some m), c, [])
    | none =>
      match request.js with
      | none => (Except.error CacheError.missingSource, c, [])
      | some js => resolveWork col c uniqueId headers request js

/-- The key data of a record: the pair of its `uniqueId` and `url`. -/
def requestKey (r : DeferredSourceMapRequest M) : String × String :=
  (r.uniqueId, r.url)

/-- The store invariant: no two records share a `uniqueId`, and no two
records share a `url` (so at most one record per URL). -/
def Invariant (c : DeferredSourceMapCache M) : Prop :=
  c.requests.Pairwise (fun a b => a.uniqueId ≠ b.uniqueId) ∧
  c.requests.Pairwise (fun a b => a.url ≠ b.url)

/-- The cache states reachable from a freshly constructed cache by any
sequence of `defer` (successful or failing), `resolve` (with any
collaborators and headers) and `reset`. -/
inductive Reachable {M : Type} : DeferredSourceMapCache M → Prop where
  | init : Reachable {}
  | deferStep (c : DeferredSourceMapCache M) (request : DeferredSourceMapRequest M) :
      Reachable c → Reachable (defer c request).2
  | resolveStep {H : Type} (col : Collaborators H M) (c : DeferredSourceMapCache M)
      (uniqueId : String) (headers : H) :
      Reachable c → Reachable (resolve col c uniqueId headers).2.1
  | resetStep (c : DeferredSourceMapCache M) : Reachable c → Reachable (reset c)

/-- Concrete record: pending rewrite of `http://x/app.js` under id `a`
(map payloads and headers are instantiated at `Nat` in the examples). -/
def exReqA : DeferredSourceMapRequest Nat :=
  { uniqueId := "a", url := "u", js := some "x" }

/-- Concrete record: a later rewrite of the same URL under id `b`. -/
def exReqB : DeferredSourceMapRequest Nat :=
  { uniqueId := "b", url := "u", js := some "y" }

/-- Concrete record deferred pre-resolved: it carries `sourceMap` already. -/
def exReqPre : DeferredSourceMapRequest Nat :=
  { uniqueId := "p", url := "w", sourceMap := some 5 }

/-- Concrete record with neither `js` nor `sourceMap` (upstream bug shape). -/
def exReqEmptyRec : DeferredSourceMapRequest Nat :=
  { uniqueId := "z", url := "t" }

/-- Concrete record reusing the superseded id `a` on a fresh URL. -/
def exReqA2 : DeferredSourceMapRequest Nat :=
  { uniqueId := "a", url := "v", js := some "z" }

/-- Concrete record reusing the live id `b` on a fresh URL. -/
def exReqBdup : DeferredSourceMapRequest Nat :=
  { uniqueId := "b", url := "q", js := some "w" }

/-- Cache holding `exReqA` only. -/
def exCache1 : DeferredSourceMapCache Nat :=
  (defer {} exReqA).2

/-- Cache after deferring `exReqA` then `exReqB` (same URL): `exReqA` is
superseded and only `exReqB` remains. -/
def exCache2 : DeferredSourceMapCache Nat :=
  (defer exCache1 exReqB).2

/-- Cache holding the pre-resolved record `exReqPre` only. -/
def exCachePre : DeferredSourceMapCache Nat :=
  (defer {} exReqPre).2

/-- Collaborators whose inline decode succeeds (value 7) and whose
composition adds one to the input map (or to 0 when absent). -/
def exColInline : Collaborators Nat Nat :=
  { getMappingUrl := fun _ => some "inline-url"
    tryDecodeInlineUrl := fun _ => some 7
    requestLib := fun _ => none
    rewriteJsSourceMapAsync := fun _ _ im => some (im.getD 0 + 1) }

/-- Collaborators with a URL-form map reference whose network fetch
always fails. -/
def exColFetchFail : Collaborators Nat Nat :=
  { getMappingUrl := fun _ => some "map-url"
    tryDecodeInlineUrl := fun _ => none
    requestLib := fun _ => none
    rewriteJsSourceMapAsync := fun _ _ im => some (im.getD 0 + 1) }

/-- Collaborators whose map composition always rejects. -/
def exColComposeFail : Collaborators Nat Nat :=
  { getMappingUrl := fun _ => none
    tryDecodeInlineUrl := fun _ => none
    requestLib := fun _ => none
    rewriteJsSourceMapAsync := fun _ _ _ => none }

/-- Collaborators whose map composition always returns the constant 3. -/
def exColComposeConst : Collaborators Nat Nat :=
  { getMappingUrl := fun _ => none
    tryDecodeInlineUrl := fun _ => none
    requestLib := fun _ => none
    rewriteJsSourceMapAsync := fun _ _ _ => some 3 }

/-- When no record matches, `resolve` returns `undefined`, touches no
state and invokes no collaborator. -/
theorem resolve_of_not_found (col : Collaborators H M) (c : DeferredSourceMapCache M)
    (uniqueId : String) (headers : H) (h : c._getRequestById uniqueId = none) :
    resolve col c uniqueId headers = (Except.ok none, c, []) := by
  simp only [resolve, h]

/-- When the matched record already has a `sourceMap`, `resolve` returns it,
touches no state and invokes no collaborator. -/
theorem resolve_of_cached (col : Collaborators H M) {c : DeferredSourceMapCache M}
    {uniqueId : String} (headers : H) {r : DeferredSourceMapRequest M} {m : M}
    (h : c._getRequestById uniqueId = some r) (hm : r.sourceMap = some m) :
    resolve col c uniqueId headers = (Except.ok (some m), c, []) := by
  simp only [resolve, h, hm]

/-- When the matched record has neither `sourceMap` nor `js`, `resolve`
throws the missing-JS error. -/
theorem resolve_of_missing_js (col : Collaborators H M) {c : DeferredSourceMapCache M}
    {uniqueId : String} (headers : H) {r : DeferredSourceMapRequest M}
    (h : c._getRequestById uniqueId = some r) (hm : r.sourceMap = none)
    (hj : r.js = none) :
    resolve col c uniqueId headers = (Except.error CacheError.missingSource, c, []) := by
  simp only [resolve, h, hm, hj]

/-- When the matched record has no `sourceMap` but does have `js`,
`resolve` proceeds to the reconstruction tail. -/
theorem resolve_of_js (col : Collaborators H M) {c : DeferredSourceMapCache M}
    {uniqueId : String} (headers : H) {r : DeferredSourceMapRequest M} {js : String}
    (h : c._getRequestById uniqueId = some r) (hm : r.sourceMap = none)
    (hj : r.js = some js) :
    resolve col c uniqueId headers = resolveWork col c uniqueId headers r js := by
  simp only [resolve, h, hm, hj]

/-- After `setResolvedSourceMap`, looking up the same `uniqueId` finds the
updated record: cached map present, `js` dropped. -/
theorem find?_setResolvedSourceMap {l : List (DeferredSourceMapRequest M)}
    {uniqueId : String} {r : DeferredSourceMapRequest M} (m : M)
    (h : l.find? (fun x => x.uniqueId == uniqueId) = some r) :
    (setResolvedSourceMap uniqueId m l).find? (fun x => x.uniqueId == uniqueId) =
      some { r with sourceMap := some m, js := none } := by
  induction l with
  | nil => simp at h
  | cons a rest ih =>
    rw [List.find?_cons] at h
    cases hb : a.uniqueId == uniqueId with
    | true =>
      rw [hb] at h
      simp only [] at h
      cases h
      simp [setResolvedSourceMap, hb, List.find?_cons]
    | false =>
      rw [hb] at h
      simp only [] at h
      simp [setResolvedSourceMap, hb, List.find?_cons, ih h]

/-- `setResolvedSourceMap` only rewrites the `js`/`sourceMap` payload of one
record; every record keeps its `uniqueId` and `url`. -/
theorem setResolvedSourceMap_map_key (uniqueId : String) (m : M)
    (l : List (DeferredSourceMapRequest M)) :
    (setResolvedSourceMap uniqueId m l).map requestKey = l.map requestKey := by
  induction l with
  | nil => rfl
  | cons a rest ih =>
    by_cases hb : (a.uniqueId == uniqueId) = true
    · simp [setResolvedSourceMap, hb, requestKey]
    · simp only [Bool.not_eq_true] at hb
      simp [setResolvedSourceMap, hb, ih]

/-- `resolve` never changes the `uniqueId`/`url` skeleton of the store,
in any of its branches. -/
theorem resolve_requests_key (col : Collaborators H M) (c : DeferredSourceMapCache M)
    (uniqueId : String) (headers : H) :
    ((resolve col c uniqueId headers).2.1).requests.map requestKey =
      c.requests.map requestKey := by
  cases hf : c._getRequestById uniqueId with
  | none => rw [resolve_of_not_found col c uniqueId headers hf]
  | some r =>
    cases hm : r.sourceMap with
    | some m => rw [resolve_of_cached col headers hf hm]
    | none =>
      cases hj : r.js with
      | none => rw [resolve_of_missing_js col headers hf hm hj]
      | some js =>
        rw [resolve_of_js col headers hf hm hj]
        unfold resolveWork
        cases hc : col.rewriteJsSourceMapAsync r.url js (getInputSourceMap col r js headers).1 with
        | none => simp [hc]
        | some m => simp [hc, setResolvedSourceMap_map_key]

/-- If `resolve` answers with a map, the store it leaves behind holds a
record for that `uniqueId` whose cached `sourceMap` is that very map. -/
theorem resolve_ok_some {col : Collaborators H M} {c : DeferredSourceMapCache M}
    {uniqueId : String} {headers : H} {m : M}
    (h : (resolve col c uniqueId headers).1 = Except.ok (some m)) :
    ∃ r', ((resolve col c uniqueId headers).2.1)._getRequestById uniqueId = some r' ∧
      r'.sourceMap = some m := by
  cases hf : c._getRequestById uniqueId with
  | none => rw [resolve_of_not_found col c uniqueId headers hf] at h ⊢; simp at h
  | some r =>
    cases hm : r.sourceMap with
    | some m0 =>
      rw [resolve_of_cached col headers hf hm] at h ⊢
      simp only [Except.ok.injEq, Option.some.injEq] at h
      exact ⟨r, hf, by rw [hm, h]⟩
    | none =>
      cases hj : r.js with
      | none => rw [resolve_of_missing_js col headers hf hm hj] at h ⊢; simp at h
      | some js =>
        rw [resolve_of_js col headers hf hm hj] at h ⊢
        unfold resolveWork at h ⊢
        cases hc : col.rewriteJsSourceMapAsync r.url js (getInputSourceMap col r js headers).1 with
        | none => simp [hc] at h
        | some m1 =>
          simp only [hc, Except.ok.injEq, Option.some.injEq] at h
          simp only [hc]
          refine ⟨{ r with sourceMap := some m1, js := none }, ?_, by simp [h]⟩
          simpa [_getRequestById] using find?_setResolvedSourceMap (l := c.requests) m1 hf

/-- If a record for the `uniqueId` is present, `resolve` never answers
`undefined`: it returns a map or throws. -/
theorem resolve_found_ne_ok_none {col : Collaborators H M} {c : DeferredSourceMapCache M}
    {uniqueId : String} {headers : H} {r : DeferredSourceMapRequest M}
    (hf : c._getRequestById uniqueId = some r) :
    (resolve col c uniqueId headers).1 ≠ Except.ok none := by
  cases hm : r.sourceMap with
  | some m => rw [resolve_of_cached col headers hf hm]; simp
  | none =>
    cases hj : r.js with
    | none => rw [resolve_of_missing_js col headers hf hm hj]; simp
    | some js =>
      rw [resolve_of_js col headers hf hm hj]
      unfold resolveWork
      cases hc : col.rewriteJsSourceMapAsync r.url js (getInputSourceMap col r js headers).1 with
      | none => simp [hc]
      | some m => simp [hc]

/-- A freshly deferred record is found by its own `uniqueId` in the store
`defer` returns. -/
theorem getRequestById_defer_self {c : DeferredSourceMapCache M}
    {request : DeferredSourceMapRequest M}
    (h : c._getRequestById request.uniqueId = none) :
    ((defer c request).2)._getRequestById request.uniqueId = some request := by
  simp only [defer, h]
  simp only [_getRequestById, _removeRequestsByUrl, List.find?_append]
  rw [_getRequestById, List.find?_eq_none] at h
  have hfil : (c.requests.filter (fun r => r.url != request.url)).find?
      (fun r => r.uniqueId == request.uniqueId) = none := by
    rw [List.find?_eq_none]
    intro x hx
    exact h x (List.mem_filter.1 hx).1
  simp [hfil, List.find?_cons]

/-- The duplicate branch of `defer`, spelled out: error, store untouched. -/
theorem defer_of_found {c : DeferredSourceMapCache M} {request r : DeferredSourceMapRequest M}
    (h : c._getRequestById request.uniqueId = some r) :
    defer c request = (Except.error CacheError.duplicateIdentifier, c) := by
  simp only [defer, h]

/-- The success branch of `defer`, spelled out: same-URL records purged,
new record appended, `uniqueId` returned. -/
theorem defer_of_not_found {c : DeferredSourceMapCache M} {request : DeferredSourceMapRequest M}
    (h : c._getRequestById request.uniqueId = none) :
    defer c request = (Except.ok request.uniqueId,
      { c with requests := (c._removeRequestsByUrl request.url).requests ++ [request] }) := by
  simp only [defer, h]

/-- The invariant only depends on the `uniqueId`/`url` skeleton of the
store. -/
theorem invariant_of_map_key_eq {c c' : DeferredSourceMapCache M}
    (h : c'.requests.map requestKey = c.requests.map requestKey)
    (hc : Invariant c) : Invariant c' := by
  constructor
  · have h1 : (c.requests.map requestKey).Pairwise (fun x y => x.1 ≠ y.1) :=
      List.pairwise_map.2 hc.1
    rw [← h] at h1
    exact (List.pairwise_map (f := requestKey)).1 h1
  · have h2 : (c.requests.map requestKey).Pairwise (fun x y => x.2 ≠ y.2) :=
      List.pairwise_map.2 hc.2
    rw [← h] at h2
    exact (List.pairwise_map (f := requestKey)).1 h2

/-- `defer` preserves the store invariant (in both of its branches). -/
theorem invariant_defer {c : DeferredSourceMapCache M}
    (request : DeferredSourceMapRequest M) (hc : Invariant c) :
    Invariant (defer c request).2 := by
  cases hf : c._getRequestById request.uniqueId with
  | some r => rw [defer_of_found hf]; exact hc
  | none =>
    rw [defer_of_not_found hf]
    have hmem : ∀ x ∈ c.requests.filter (fun r => r.url != request.url), x ∈ c.requests :=
      fun x hx => (List.mem_filter.1 hx).1
    constructor
    · rw [show ({ c with requests := (c._removeRequestsByUrl request.url).requests ++ [request] } :
          DeferredSourceMapCache M).requests =
          c.requests.filter (fun r => r.url != request.url) ++ [request] from rfl,
        List.pairwise_append]
      refine ⟨List.Pairwise.sublist (List.filter_sublist _) hc.1, by simp, ?_⟩
      intro a ha b hb
      rw [List.mem_singleton] at hb
      subst hb
      have hne := List.find?_eq_none.1 hf a (hmem a ha)
      simpa using hne
    · rw [show ({ c with requests := (c._removeRequestsByUrl request.url).requests ++ [request] } :
          DeferredSourceMapCache M).requests =
          c.requests.filter (fun r => r.url != request.url) ++ [request] from rfl,
        List.pairwise_append]
      refine ⟨List.Pairwise.sublist (List.filter_sublist _) hc.2, by simp, ?_⟩
      intro a ha b hb
      rw [List.mem_singleton] at hb
      subst hb
      have := (List.mem_filter.1 ha).2
      simpa using this

/-- `resolve` preserves the store invariant. -/
theorem invariant_resolve (col : Collaborators H M) (c : DeferredSourceMapCache M)
    (uniqueId : String) (headers : H) (hc : Invariant c) :
    Invariant (resolve col c uniqueId headers).2.1 :=
  invariant_of_map_key_eq (resolve_requests_key col c uniqueId headers) hc

/-- The empty store satisfies the invariant; so does any `reset` result. -/
theorem invariant_reset (c : DeferredSourceMapCache M) : Invariant (reset c) := by
  constructor <;> simp [reset]

/-- A `defer` call that returns its `uniqueId` found no prior record with
that `uniqueId`. -/
theorem defer_ok_not_found {c : DeferredSourceMapCache M}
    {request : DeferredSourceMapRequest M}
    (h : (defer c request).1 = Except.ok request.uniqueId) :
    c._getRequestById request.uniqueId = none := by
  cases hf : c._getRequestById request.uniqueId with
  | none => rfl
  | some r => rw [defer_of_found hf] at h; simp at h

/-- C1 (idempotent resolution): a record already carrying a resolved
source map makes `resolve` return that stored map immediately, leaving the
store untouched and invoking no collaborator (empty trace); consequently,
whenever a `resolve` call returns a map, a second `resolve` on the same
`uniqueId` — with any collaborators and headers — returns the identical
map payload, leaves the store unchanged, and performs no map-reference
lookup, inline decode, network fetch or composition (empty trace). -/
theorem resolve_idempotent (col : Collaborators H M) (c : DeferredSourceMapCache M)
    (uniqueId : String) (headers : H) :
    (∀ (r : DeferredSourceMapRequest M) (m : M),
      c._getRequestById uniqueId = some r → r.sourceMap = some m →
      resolve col c uniqueId headers = (Except.ok (some m), c, [])) ∧
    (∀ (m : M) {H₂ : Type} (col₂ : Collaborators H₂ M) (headers₂ : H₂),
      (resolve col c uniqueId headers).1 = Except.ok (some m) →
      resolve col₂ ((resolve col c uniqueId headers).2.1) uniqueId headers₂ =
        (Except.ok (some m), (resolve col c uniqueId headers).2.1, [])) := by
  constructor
  · intro r m hf hm
    exact resolve_of_cached col headers hf hm
  · intro m H₂ col₂ headers₂ h
    obtain ⟨r', hr', hm'⟩ := resolve_ok_some h
    exact resolve_of_cached col₂ headers₂ hr' hm'

/-- C1 witness: a pre-resolved record is served as-is with an empty trace,
and the second call after a first successful `resolve` is a pure cache
hit, even under different collaborators and headers. -/
theorem resolve_idempotent_witness :
    resolve exColInline exCachePre "p" 0 = (Except.ok (some 5), exCachePre, []) ∧
    resolve exColFetchFail ((resolve exColInline exCachePre "p" 0).2.1) "p" 1 =
      (Except.ok (some 5), (resolve exColInline exCachePre "p" 0).2.1, []) :=
  ⟨(resolve_idempotent exColInline exCachePre "p" 0).1 exReqPre 5 rfl rfl,
    (resolve_idempotent exColInline exCachePre "p" 0).2 5 exColFetchFail 1 rfl⟩

/-- C2 (supersession): after two successful `defer` calls for the same URL
under distinct `uniqueId`s, `resolve` on the first id returns "absent"
(with no state change and no collaborator call), while `resolve` on the
second id never returns "absent". -/
theorem defer_supersession (col : Collaborators H M) (c : DeferredSourceMapCache M)
    (rA rB : DeferredSourceMapRequest M) (headers : H)
    (hurl : rA.url = rB.url) (hid : rA.uniqueId ≠ rB.uniqueId)
    (hA : (defer c rA).1 = Except.ok rA.uniqueId)
    (hB : (defer (defer c rA).2 rB).1 = Except.ok rB.uniqueId) :
    resolve col ((defer (defer c rA).2 rB).2) rA.uniqueId headers =
      (Except.ok none, (defer (defer c rA).2 rB).2, []) ∧
    (resolve col ((defer (defer c rA).2 rB).2) rB.uniqueId headers).1 ≠
      Except.ok none := by
  have hfA : c._getRequestById rA.uniqueId = none := defer_ok_not_found hA
  have hfB : ((defer c rA).2)._getRequestById rB.uniqueId = none := defer_ok_not_found hB
  have hBfound := getRequestById_defer_self hfB
  refine ⟨?_, resolve_found_ne_ok_none hBfound⟩
  apply resolve_of_not_found
  rw [defer_of_not_found hfA] at hfB ⊢
  rw [defer_of_not_found hfB]
  rw [_getRequestById, List.find?_eq_none]
  intro x hx
  simp only [_removeRequestsByUrl] at hx
  rcases List.mem_append.1 hx with hx1 | hx1
  · have hx2 := List.mem_filter.1 hx1
    rcases List.mem_append.1 hx2.1 with hx3 | hx3
    · have := List.find?_eq_none.1 hfA x (List.mem_filter.1 hx3).1
      simpa using this
    · rw [List.mem_singleton] at hx3
      subst hx3
      have := hx2.2
      rw [hurl] at this
      simp at this
  · rw [List.mem_singleton] at hx1
    subst hx1
    simp [Ne.symm hid]

/-- C2 witness: deferring ids `a` then `b` for the same URL makes
`resolve "a"` absent while `resolve "b"` is not absent. -/
theorem defer_supersession_witness :
    resolve exColInline exCache2 "a" 0 = (Except.ok none, exCache2, []) ∧
    (resolve exColInline exCache2 "b" 0).1 ≠ Except.ok none :=
  defer_supersession exColInline {} exReqA exReqB 0 rfl (by decide) rfl rfl

/-- C3 counterexample: id `a` was previously passed to a successful
`defer` (first conjunct), was then superseded by a `defer` of id `b` for
the same URL (the state `exCache2`), and a later `defer` reusing id `a`
SUCCEEDS, returning the id — it does not fail with the
duplicate-identifier error as the claim states. -/
theorem defer_superseded_id_reusable :
    (defer ({} : DeferredSourceMapCache Nat) exReqA).1 = Except.ok "a" ∧
    (defer exCache2 exReqA2).1 = Except.ok "a" :=
  ⟨rfl, rfl⟩

/-- C3 amended: duplicate rejection applies to every `uniqueId` whose
record is currently held in the store — whether that record is still
pending or already resolved —: `defer` then fails with the
duplicate-identifier error and leaves the store unchanged.  A `uniqueId`
whose record was superseded (hence removed) is no longer rejected. -/
theorem defer_duplicate_rejected (c : DeferredSourceMapCache M)
    (request r : DeferredSourceMapRequest M)
    (hf : c._getRequestById request.uniqueId = some r) :
    defer c request = (Except.error CacheError.duplicateIdentifier, c) :=
  defer_of_found hf

/-- C3 witness: reusing the live id `b` fails with the duplicate error and
leaves the store unchanged. -/
theorem defer_duplicate_rejected_witness :
    defer exCache2 exReqBdup = (Except.error CacheError.duplicateIdentifier, exCache2) :=
  defer_duplicate_rejected exCache2 exReqBdup exReqB rfl

/-- C4 (store invariant): in every store state reachable from the fresh
cache by any sequence of `defer` (successful or failing), `resolve` and
`reset`, no two records share a `uniqueId` and no two records share a
`url` (at most one record per URL). -/
theorem store_invariant (c : DeferredSourceMapCache M) (h : Reachable c) :
    c.requests.Pairwise (fun a b => a.uniqueId ≠ b.uniqueId) ∧
    c.requests.Pairwise (fun a b => a.url ≠ b.url) := by
  induction h with
  | init => exact ⟨List.Pairwise.nil, List.Pairwise.nil⟩
  | deferStep c request _ ih => exact invariant_defer request ih
  | resolveStep col c uniqueId headers _ ih => exact invariant_resolve col c uniqueId headers ih
  | resetStep c _ _ => exact invariant_reset c

/-- C4 witness: the invariant at the concrete reachable state obtained by
deferring `exReqA` and then `exReqB`. -/
theorem store_invariant_witness :
    exCache2.requests.Pairwise (fun a b => a.uniqueId ≠ b.uniqueId) ∧
    exCache2.requests.Pairwise (fun a b => a.url ≠ b.url) :=
  store_invariant exCache2
    (Reachable.deferStep exCache1 exReqB (Reachable.deferStep {} exReqA Reachable.init))

/-- C5 (fetch failure non-fatal): when the rewritten JS carries a
URL-form (non-inline) map reference and the network fetch fails,
`resolve` does not propagate the failure: it composes with no input map
and returns the composed map; the fetch it issued carried the record's
`url`, the caller-supplied `headers` and a 5000 ms timeout. -/
theorem fetch_failure_nonfatal (col : Collaborators H M)
    (c : DeferredSourceMapCache M) (uniqueId : String) (headers : H)
    (r : DeferredSourceMapRequest M) (js sourceMapUrl : String) (m : M)
    (hf : c._getRequestById uniqueId = some r) (hm : r.sourceMap = none)
    (hj : r.js = some js)
    (hmu : col.getMappingUrl js = some sourceMapUrl)
    (hinl : col.tryDecodeInlineUrl sourceMapUrl = none)
    (hfetch : col.requestLib ⟨r.url, headers, 5000⟩ = none)
    (hcomp : col.rewriteJsSourceMapAsync r.url js none = some m) :
    (resolve col c uniqueId headers).1 = Except.ok (some m) ∧
    Event.requestLib ⟨r.url, headers, 5000⟩ ∈ (resolve col c uniqueId headers).2.2 := by
  rw [resolve_of_js col headers hf hm hj]
  have hg : getInputSourceMap col r js headers =
      (none, [Event.getMappingUrl js, Event.tryDecodeInlineUrl sourceMapUrl,
        Event.requestLib ⟨r.url, headers, 5000⟩]) := by
    simp [getInputSourceMap, hmu, hinl, hfetch]
  unfold resolveWork
  rw [hg]
  simp [hcomp]

/-- C5 witness: on the concrete record `b`, a collaborator set whose fetch
always fails still yields a composed map (input map absent: 0 + 1 = 1),
and the trace shows the fetch request `{url := "u", headers := 0,
timeout := 5000}`. -/
theorem fetch_failure_nonfatal_witness :
    (resolve exColFetchFail exCache2 "b" 0).1 = Except.ok (some 1) ∧
    Event.requestLib ⟨"u", 0, 5000⟩ ∈ (resolve exColFetchFail exCache2 "b" 0).2.2 :=
  fetch_failure_nonfatal exColFetchFail exCache2 "b" 0 exReqB "y" "map-url" 1
    rfl rfl rfl rfl rfl rfl rfl

/-- C6 (absent is not an error): when no record matches the `uniqueId`,
`resolve` returns "absent" with no error, no state change and no
collaborator call; in particular, after `reset` every `uniqueId` resolves
to "absent". -/
theorem absent_not_error (col : Collaborators H M) (c : DeferredSourceMapCache M)
    (uniqueId : String) (headers : H) :
    (c._getRequestById uniqueId = none →
      resolve col c uniqueId headers = (Except.ok none, c, [])) ∧
    (∀ uid : String, resolve col (reset c) uid headers = (Except.ok none, reset c, [])) := by
  constructor
  · exact resolve_of_not_found col c uniqueId headers
  · intro uid
    exact resolve_of_not_found col (reset c) uid headers rfl

/-- C6 witness: a never-deferred id resolves to absent, and after `reset`
the previously valid id `b` resolves to absent as well. -/
theorem absent_not_error_witness :
    resolve exColInline exCache2 "nope" 0 = (Except.ok none, exCache2, []) ∧
    resolve exColInline (reset exCache2) "b" 0 = (Except.ok none, reset exCache2, []) :=
  ⟨(absent_not_error exColInline exCache2 "nope" 0).1 rfl,
    (absent_not_error exColInline exCache2 "b" 0).2 "b"⟩

/-- C7 (resolve-once memory bound): after a first successful resolution of
a not-yet-resolved record, the store holds that record with its `js`
dropped and the composed map cached; and any later `resolve` on the same
`uniqueId` — the only operation that writes to a held record — returns
that cached map unchanged without overwriting it (the store and the
record stay exactly as they are; `defer` and `reset` can only remove the
record, never rewrite its map). -/
theorem resolve_once_memory_bound (col : Collaborators H M)
    (c : DeferredSourceMapCache M) (uniqueId : String) (headers : H)
    (r : DeferredSourceMapRequest M) (m : M)
    (hf : c._getRequestById uniqueId = some r) (hm : r.sourceMap = none)
    (h : (resolve col c uniqueId headers).1 = Except.ok (some m)) :
    ((resolve col c uniqueId headers).2.1)._getRequestById uniqueId =
      some { r with sourceMap := some m, js := none } ∧
    (∀ {H₂ : Type} (col₂ : Collaborators H₂ M) (headers₂ : H₂),
      resolve col₂ ((resolve col c uniqueId headers).2.1) uniqueId headers₂ =
        (Except.ok (some m), (resolve col c uniqueId headers).2.1, [])) := by
  cases hj : r.js with
  | none =>
    rw [resolve_of_missing_js col headers hf hm hj] at h
    simp at h
  | some js =>
    rw [resolve_of_js col headers hf hm hj] at h ⊢
    unfold resolveWork at h ⊢
    cases hc : col.rewriteJsSourceMapAsync r.url js (getInputSourceMap col r js headers).1 with
    | none => simp [hc] at h
    | some m1 =>
      simp only [hc, Except.ok.injEq, Option.some.injEq] at h
      subst h
      have hfind : (({ c with requests := setResolvedSourceMap uniqueId m1 c.requests } :
          DeferredSourceMapCache M))._getRequestById uniqueId =
          some { r with sourceMap := some m1, js := none } := by
        simpa [_getRequestById] using find?_setResolvedSourceMap (l := c.requests) m1 hf
      constructor
      · simpa [hc] using hfind
      · intro H₂ col₂ headers₂
        simp only [hc]
        exact resolve_of_cached col₂ headers₂ hfind rfl

/-- C7 witness: resolving the concrete record `b` caches map 8, drops the
source text, and a later resolve with a collaborator set that would fail
to compose still returns the cached map with no state change. -/
theorem resolve_once_memory_bound_witness :
    ((resolve exColInline exCache2 "b" 0).2.1)._getRequestById "b" =
      some { uniqueId := "b", url := "u", js := none, sourceMap := some 8 } ∧
    resolve exColComposeFail ((resolve exColInline exCache2 "b" 0).2.1) "b" 1 =
      (Except.ok (some 8), (resolve exColInline exCache2 "b" 0).2.1, []) :=
  ⟨(resolve_once_memory_bound exColInline exCache2 "b" 0 exReqB 8 rfl rfl rfl).1,
    (resolve_once_memory_bound exColInline exCache2 "b" 0 exReqB 8 rfl rfl rfl).2
      exColComposeFail 1⟩

/-- C8 (inline path needs no network): when the map reference in the
rewritten JS decodes inline, `resolve` performs no network fetch (no
`requestLib` event in the trace) and returns the map composed from the
record's `url`, its rewritten JS and the decoded inline map. -/
theorem inline_path_no_network (col : Collaborators H M)
    (c : DeferredSourceMapCache M) (uniqueId : String) (headers : H)
    (r : DeferredSourceMapRequest M) (js sourceMapUrl : String) (im m : M)
    (hf : c._getRequestById uniqueId = some r) (hm : r.sourceMap = none)
    (hj : r.js = some js)
    (hmu : col.getMappingUrl js = some sourceMapUrl)
    (hinl : col.tryDecodeInlineUrl sourceMapUrl = some im)
    (hcomp : col.rewriteJsSourceMapAsync r.url js (some im) = some m) :
    (resolve col c uniqueId headers).1 = Except.ok (some m) ∧
    (resolve col c uniqueId headers).2.2.all (fun e => ! e.isRequestLib) = true := by
  rw [resolve_of_js col headers hf hm hj]
  have hg : getInputSourceMap col r js headers =
      (some im, [Event.getMappingUrl js, Event.tryDecodeInlineUrl sourceMapUrl]) := by
    simp [getInputSourceMap, hmu, hinl]
  unfold resolveWork
  rw [hg]
  simp [hcomp, Event.isRequestLib]

/-- C8 witness: the concrete record `b` resolved with inline-decoding
collaborators yields the composed map 8 (7 + 1) and a trace with no
`requestLib` event. -/
theorem inline_path_no_network_witness :
    (resolve exColInline exCache2 "b" 0).1 = Except.ok (some 8) ∧
    (resolve exColInline exCache2 "b" 0).2.2.all (fun e => ! e.isRequestLib) = true :=
  inline_path_no_network exColInline exCache2 "b" 0 exReqB "y" "inline-url" 7 8
    rfl rfl rfl rfl rfl rfl

/-- C9 (missing-source raises iff): `resolve` fails with the
missing-source error exactly when the matched record exists with neither
a cached `sourceMap` nor `js`; and `defer` performs no such validation —
it accepts a record with neither field (given a fresh id), and the
violation only surfaces when that id is later resolved. -/
theorem missing_source_iff (col : Collaborators H M) (c : DeferredSourceMapCache M)
    (uniqueId : String) (headers : H) (request : DeferredSourceMapRequest M) :
    ((resolve col c uniqueId headers).1 = Except.error CacheError.missingSource ↔
      ∃ r, c._getRequestById uniqueId = some r ∧ r.sourceMap = none ∧ r.js = none) ∧
    (c._getRequestById request.uniqueId = none → request.sourceMap = none →
      request.js = none →
      (defer c request).1 = Except.ok request.uniqueId ∧
      (resolve col (defer c request).2 request.uniqueId headers).1 =
        Except.error CacheError.missingSource) := by
  constructor
  · constructor
    · intro h
      cases hf : c._getRequestById uniqueId with
      | none => rw [resolve_of_not_found col c uniqueId headers hf] at h; simp at h
      | some r =>
        cases hms : r.sourceMap with
        | some m => rw [resolve_of_cached col headers hf hms] at h; simp at h
        | none =>
          cases hj : r.js with
          | none => exact ⟨r, rfl, hms, hj⟩
          | some js =>
            rw [resolve_of_js col headers hf hms hj] at h
            unfold resolveWork at h
            cases hc : col.rewriteJsSourceMapAsync r.url js
                (getInputSourceMap col r js headers).1 with
            | none => simp [hc] at h
            | some m => simp [hc] at h
    · rintro ⟨r, hf, hms, hj⟩
      rw [resolve_of_missing_js col headers hf hms hj]
  · intro hnf hms hj
    have hfind := getRequestById_defer_self hnf
    refine ⟨by rw [defer_of_not_found hnf], ?_⟩
    rw [resolve_of_missing_js col headers hfind hms hj]

/-- C9 witness: the record `z` with neither `js` nor `sourceMap` is
accepted by `defer`, and resolving `z` afterwards fails with the
missing-source error. -/
theorem missing_source_iff_witness :
    (defer exCache2 exReqEmptyRec).1 = Except.ok "z" ∧
    (resolve exColInline (defer exCache2 exReqEmptyRec).2 "z" 0).1 =
      Except.error CacheError.missingSource :=
  (missing_source_iff exColInline exCache2 "z" 0 exReqEmptyRec).2 rfl rfl rfl

/-- C10 (compose-failure atomicity): if the map composition fails on a
first resolution, `resolve` propagates the error and leaves the store —
hence the record, its `js` and its absent `sourceMap` — completely
unchanged; a subsequent `resolve` on the same `uniqueId` therefore
re-attempts the full reconstruction (here: with composition repaired, it
returns the freshly composed map rather than any cached result). -/
theorem compose_failure_atomic (col : Collaborators H M)
    (c : DeferredSourceMapCache M) (uniqueId : String) (headers : H)
    (r : DeferredSourceMapRequest M) (js : String)
    (hf : c._getRequestById uniqueId = some r) (hm : r.sourceMap = none)
    (hj : r.js = some js)
    (hcomp : ∀ im, col.rewriteJsSourceMapAsync r.url js im = none) :
    (resolve col c uniqueId headers).1 = Except.error CacheError.composeError ∧
    (resolve col c uniqueId headers).2.1 = c ∧
    (∀ {H₂ : Type} (col₂ : Collaborators H₂ M) (headers₂ : H₂) (m₂ : M),
      (∀ im, col₂.rewriteJsSourceMapAsync r.url js im = some m₂) →
      (resolve col₂ ((resolve col c uniqueId headers).2.1) uniqueId headers₂).1 =
        Except.ok (some m₂)) := by
  have hres : resolve col c uniqueId headers =
      (Except.error CacheError.composeError, c,
        (getInputSourceMap col r js headers).2 ++
          [Event.rewriteJsSourceMapAsync r.url js (getInputSourceMap col r js headers).1]) := by
    rw [resolve_of_js col headers hf hm hj]
    unfold resolveWork
    simp [hcomp]
  have h21 : (resolve col c uniqueId headers).2.1 = c := by rw [hres]
  refine ⟨by rw [hres], h21, ?_⟩
  intro H₂ col₂ headers₂ m₂ hcomp₂
  rw [h21, resolve_of_js col₂ headers₂ hf hm hj]
  unfold resolveWork
  simp [hcomp₂]

/-- C10 witness: composition fails on the concrete record `b`: the error
propagates, the store is unchanged, and resolving again with a repaired
composition returns that composition's map (3), not a cached one. -/
theorem compose_failure_atomic_witness :
    (resolve exColComposeFail exCache2 "b" 0).1 = Except.error CacheError.composeError ∧
    (resolve exColComposeFail exCache2 "b" 0).2.1 = exCache2 ∧
    (resolve exColComposeConst ((resolve exColComposeFail exCache2 "b" 0).2.1) "b" 1).1 =
      Except.ok (some 3) :=
  have h := compose_failure_atomic exColComposeFail exCache2 "b" 0 exReqB "y"
    rfl rfl rfl (fun _ => rfl)
  ⟨h.1, h.2.1, h.2.2 exColComposeConst 1 3 (fun _ => rfl)⟩

end DeferredSourceMapCache

end Rewriter
